import Mathlib

/-!
Verification development for the lodestone instance-lifecycle orchestrator.

The Rust sources embedded here are `src/handlers/instance_fs.rs` (the scoped
file-system handlers and the protected-extension policy) and
`src/handlers/instance.rs` (list / inspect / create / delete workflows).
Paths are modelled as lists of components; file contents as strings; the
asynchronous runtime's effects (filesystem calls, the detached provisioning
task) as explicit state passing with boolean/`Except` oracles standing for the
outcome of each fallible external call.
-/

namespace Lodestone

/-- An absolute or relative filesystem path, as a list of components. -/
abbrev Path := List String

/-- Split a character stream at `/` or `\` separators.  Both separators are
treated alike regardless of platform (the "win safe" normalization the spec
requires of the scoped join). -/
def splitPathAux : List Char → List Char → List (List Char)
  | [], acc => [acc.reverse]
  | c :: cs, acc =>
    if c = '/' ∨ c = '\\' then acc.reverse :: splitPathAux cs []
    else splitPathAux cs (c :: acc)

/-- Components of a user-supplied relative path: split at either separator,
dropping empty components and `.` components. -/
def pathComponents (rel : String) : List String :=
  ((splitPathAux rel.data []).filter (fun c => decide (c ≠ [] ∧ c ≠ ['.']))).map String.mk

/-- Process `..` components against an accumulator of already-resolved
components; `none` means the traversal stepped above the root. -/
def resolveRel : List String → List String → Option (List String)
  | [], acc => some acc
  | c :: rest, acc =>
    if c = ".." then
      match acc with
      | [] => none
      | _ :: _ => resolveRel rest acc.dropLast
    else resolveRel rest (acc ++ [c])

/-- Lifecycle state of a server.  Modelled from the spec: `t_server::State` is
not among the provided sources; the spec needs a terminal "stopped" state and
non-stopped states such as "running". -/
inductive State
  | Starting
  | Running
  | Stopped
  deriving DecidableEq, Repr

/-- One instance handle as held by the registry: identity, name, filesystem
root, port, flavour-independent lifecycle state, creation timestamp. -/
structure Instance where
  uuid : String
  name : String
  path : Path
  port : Nat
  state : State
  creation_time : Int
  deriving DecidableEq, Repr

/-- The info record returned to clients. -/
structure InstanceInfo where
  uuid : String
  name : String
  port : Nat
  state : State
  creation_time : Int
  deriving DecidableEq, Repr

def Instance.get_instance_info (i : Instance) : InstanceInfo :=
  ⟨i.uuid, i.name, i.port, i.state, i.creation_time⟩

/-- Actions subject to authorization (`auth::user::UserAction`). -/
inductive UserAction
  | ViewInstance (uuid : String)
  | CreateInstance
  | DeleteInstance
  | StartInstance (uuid : String)
  | StopInstance (uuid : String)
  | ReadInstanceFile (uuid : String)
  | WriteInstanceFile (uuid : String)
  deriving DecidableEq, Repr

/-- A user's permission record.  Modelled from the spec: `auth::user` is not
among the provided sources; the spec says the record holds per-instance scoped
capability sets plus global create/delete rights. -/
structure UserPermission where
  can_view_instance : List String
  can_start_instance : List String
  can_stop_instance : List String
  can_read_instance_file : List String
  can_write_instance_file : List String
  can_create_instance : Bool
  can_delete_instance : Bool
  deriving DecidableEq, Repr

/-- An authenticated requester. -/
structure Requester where
  uid : String
  username : String
  permissions : UserPermission
  deriving DecidableEq, Repr

/-- Modelled from the spec: permission evaluation is "a pure lookup against the
requester's permission record" (§4.3). -/
def Requester.can_perform_action (r : Requester) (a : UserAction) : Bool :=
  match a with
  | .ViewInstance uuid => r.permissions.can_view_instance.contains uuid
  | .CreateInstance => r.permissions.can_create_instance
  | .DeleteInstance => r.permissions.can_delete_instance
  | .StartInstance uuid => r.permissions.can_start_instance.contains uuid
  | .StopInstance uuid => r.permissions.can_stop_instance.contains uuid
  | .ReadInstanceFile uuid => r.permissions.can_read_instance_file.contains uuid
  | .WriteInstanceFile uuid => r.permissions.can_write_instance_file.contains uuid

/-- Modelled from the spec: "authenticate token → requester identity" is an
opaque external call; modelled as a lookup from bearer token to requester. -/
def try_auth (token : String) (users : List (String × Requester)) : Option Requester :=
  (users.find? (fun u => u.1 == token)).map Prod.snd

/-- The supported game types of the create endpoint. -/
inductive HandlerGameType
  | MinecraftJavaVanilla
  | MinecraftForge
  | MinecraftFabric
  | MinecraftPaper
  deriving DecidableEq, Repr

def HandlerGameType.toStr : HandlerGameType → String
  | .MinecraftJavaVanilla => "MinecraftJavaVanilla"
  | .MinecraftForge => "MinecraftForge"
  | .MinecraftFabric => "MinecraftFabric"
  | .MinecraftPaper => "MinecraftPaper"

/-- The content of the `.lodestone_config` directory marker: the instance
identity and the game type. -/
structure DotLodestoneConfig where
  uuid : String
  game_type : HandlerGameType
  deriving DecidableEq, Repr

/-- Serialization of the directory marker (stands for the pretty-printed JSON
the code writes; what matters is that it embeds the identity injectively). -/
def serialize_dot_lodestone_config (c : DotLodestoneConfig) : String :=
  "\x7b \"uuid\": \"" ++ c.uuid ++ "\", \"game_type\": \"" ++ c.game_type.toStr ++ "\" \x7d"

/-- The filesystem: a finite map from file paths to contents, plus the set of
directories that exist. -/
structure Fs where
  files : List (Path × String)
  dirs : List Path
  deriving DecidableEq, Repr

def Fs.fileAt (fs : Fs) (p : Path) : Option String :=
  (fs.files.find? (fun f => f.1 == p)).map Prod.snd

def Fs.writeFile (fs : Fs) (p : Path) (content : String) : Fs :=
  ⟨(fs.files.filter (fun f => !(f.1 == p))) ++ [(p, content)], fs.dirs⟩

def Fs.removeFile (fs : Fs) (p : Path) : Fs :=
  ⟨fs.files.filter (fun f => !(f.1 == p)), fs.dirs⟩

def Fs.removeDirAll (fs : Fs) (p : Path) : Fs :=
  ⟨fs.files.filter (fun f => !(p.isPrefixOf f.1)),
   fs.dirs.filter (fun d => !(p.isPrefixOf d))⟩

def Fs.mkdirAll (fs : Fs) (p : Path) : Fs :=
  ⟨fs.files, fs.dirs ++ (List.range p.length).map (fun n => p.take (n + 1))⟩

def Fs.existsPath (fs : Fs) (p : Path) : Bool :=
  fs.files.any (fun f => f.1 == p) || fs.dirs.contains p ||
    fs.files.any (fun f => p.isPrefixOf f.1 && !(f.1 == p))

def Fs.isDirAt (fs : Fs) (p : Path) : Bool :=
  fs.dirs.contains p || fs.files.any (fun f => p.isPrefixOf f.1 && !(f.1 == p))

/-- Modelled from the spec: `util::list_dir` is not among the provided sources;
it lists the entries of a directory. -/
def Fs.listDir (fs : Fs) (p : Path) : List Path :=
  (fs.files.map Prod.fst ++ fs.dirs).filter (fun q => p.isPrefixOf q && q.length == p.length + 1)

/-- The attribution of an emitted event. -/
inductive CausedBy
  | User (user_id : String) (user_name : String)
  | System
  deriving DecidableEq, Repr

/-- Progression events, in the two halves the broadcaster exposes.  The `10.0`
float total of the code is modelled as the natural number 10. -/
inductive Event
  | progression_start (event_id : Nat) (message : String) (instance_uuid : Option String)
      (total : Option Nat) (caused_by : CausedBy)
  | progression_end (event_id : Nat) (success : Bool) (message : Option String)
  deriving DecidableEq, Repr

/-- The registry: an association list from identity to handle, standing for the
mutex-guarded `HashMap`. -/
abbrev Registry := List (String × Instance)

def regGet (m : Registry) (k : String) : Option Instance :=
  (m.find? (fun e => e.1 == k)).map Prod.snd

def regInsert (m : Registry) (k : String) (v : Instance) : Registry :=
  m.filter (fun e => !(e.1 == k)) ++ [(k, v)]

def regRemove (m : Registry) (k : String) : Registry :=
  m.filter (fun e => !(e.1 == k))

/-- The claimed-port set of the Port Allocator. -/
def addPort (ports : List Nat) (p : Nat) : List Nat :=
  if ports.contains p then ports else ports ++ [p]

def deallocate (ports : List Nat) (p : Nat) : List Nat :=
  ports.filter (fun q => !(q == p))

namespace InstanceFs

/-- Error kinds of `crate::traits::ErrorInner` as used by the file-system
handlers.  `MalformedPath` is the kind the spec assigns to a sandbox-escaping
path (the scoped-join helper lives in `src/util.rs`, outside the provided
sources). -/
inductive ErrorInner
  | Unauthorized
  | PermissionDenied
  | InstanceNotFound
  | FileOrDirNotFound
  | MalformedRequest
  | MalformedFile
  | MalformedPath
  deriving DecidableEq, Repr

/-- The type `crate::traits::Error`: a machine-readable kind plus a human-readable
detail string. -/
structure Error where
  inner : ErrorInner
  detail : String
  deriving DecidableEq, Repr

/-- The fixed deny-list of file extensions that can never be modified
(`PROTECTED_EXTENSIONS` in `instance_fs.rs`). -/
def PROTECTED_EXTENSIONS : List String :=
  ["jar", "lua", "sh", "exe", "bat", "cmd", "msi", "lodestone_config", "out", "inf"]

/-- Split a file name at its last dot: `some (before, after)` when a dot
occurs, `none` otherwise. -/
def lastDotSplit : List Char → Option (List Char × List Char)
  | [] => none
  | c :: rest =>
    match lastDotSplit rest with
    | some (b, a) => some (c :: b, a)
    | none => if c = '.' then some ([], rest) else none

/-- Rust's `Path::extension` on a file name: `none` when there is no dot, or
when the name begins with its only dot (so `.lodestone_config` has no
extension); otherwise the portion after the final dot. -/
def extensionOfName (name : List Char) : Option String :=
  match lastDotSplit name with
  | none => none
  | some (before, after) => if before = [] then none else some (String.mk after)

/-- Rust's `Path::extension` applied to the final component of the path. -/
def pathExtension (p : Lodestone.Path) : Option String :=
  match p.getLast? with
  | none => none
  | some name => extensionOfName name.data

/-- Function `is_file_protected` from `instance_fs.rs`: a file with a deny-listed
extension, or with no extension at all, is protected. -/
def is_file_protected (p : Lodestone.Path) : Bool :=
  match pathExtension p with
  | some ext => PROTECTED_EXTENSIONS.contains ext
  | none => true

/-- Modelled from the spec: `scoped_join_win_safe` lives in `src/util.rs`,
which is not among the provided sources.  Per §4.2 it treats `\` and `/` alike
as separators, joins the relative path onto `root`, and fails with the
`MalformedPath` kind when parent-directory traversal would escape `root`. -/
def scoped_join_win_safe (root : Lodestone.Path) (relative_path : String) :
    Except Error Lodestone.Path :=
  match Lodestone.resolveRel (Lodestone.pathComponents relative_path) [] with
  | none => .error ⟨.MalformedPath, "Relative path tries to escape its root"⟩
  | some comps => .ok (root ++ comps)

/-- Handler `list_instance_files`: authenticate, check the read-file permission, look
up the instance, resolve the path, then list the directory. -/
def list_instance_files (users : List (String × Lodestone.Requester)) (token : String)
    (instances : Lodestone.Registry) (uuid : String) (relative_path : String)
    (fs : Lodestone.Fs) : Except Error (List Lodestone.Path) :=
  match Lodestone.try_auth token users with
  | none => .error ⟨.Unauthorized, "Token error"⟩
  | some requester =>
    if requester.can_perform_action (.ReadInstanceFile uuid) then
      match Lodestone.regGet instances uuid with
      | none => .error ⟨.InstanceNotFound, ""⟩
      | some inst =>
        match scoped_join_win_safe inst.path relative_path with
        | .error e => .error e
        | .ok p =>
          if fs.existsPath p && fs.isDirAt p then .ok (fs.listDir p)
          else .error ⟨.FileOrDirNotFound, "Path is not a directory"⟩
    else .error ⟨.PermissionDenied, "Not authorized to access instance files"⟩

/-- Handler `read_instance_file`.  File contents are modelled as (UTF-8) strings, so
the non-UTF-8 `MalformedFile` branch of `read_to_string` has no counterpart in
the model. -/
def read_instance_file (users : List (String × Lodestone.Requester)) (token : String)
    (instances : Lodestone.Registry) (uuid : String) (relative_path : String)
    (fs : Lodestone.Fs) : Except Error String :=
  match Lodestone.try_auth token users with
  | none => .error ⟨.Unauthorized, "Token error"⟩
  | some requester =>
    if requester.can_perform_action (.ReadInstanceFile uuid) then
      match Lodestone.regGet instances uuid with
      | none => .error ⟨.InstanceNotFound, ""⟩
      | some inst =>
        match scoped_join_win_safe inst.path relative_path with
        | .error e => .error e
        | .ok p =>
          match fs.fileAt p with
          | none => .error ⟨.MalformedRequest, "Path is not a file"⟩
          | some content => .ok content
    else .error ⟨.PermissionDenied, "Not authorized to access instance files"⟩

/-- Handler `write_instance_file`: the protected-extension check runs after path
resolution and before the write; `write_ok` is the outcome of the
`tokio::fs::write` call.  Returns the result together with the filesystem
after the request. -/
def write_instance_file (users : List (String × Lodestone.Requester)) (token : String)
    (instances : Lodestone.Registry) (uuid : String) (relative_path : String)
    (body : String) (fs : Lodestone.Fs) (write_ok : Bool) :
    Except Error Unit × Lodestone.Fs :=
  match Lodestone.try_auth token users with
  | none => (.error ⟨.Unauthorized, "Token error"⟩, fs)
  | some requester =>
    if requester.can_perform_action (.WriteInstanceFile uuid) then
      match Lodestone.regGet instances uuid with
      | none => (.error ⟨.InstanceNotFound, ""⟩, fs)
      | some inst =>
        match scoped_join_win_safe inst.path relative_path with
        | .error e => (.error e, fs)
        | .ok p =>
          if is_file_protected p then
            (.error ⟨.PermissionDenied, "Cannot modify protected file"⟩, fs)
          else if write_ok then (.ok (), fs.writeFile p body)
          else (.error ⟨.MalformedRequest, "Failed to write file"⟩, fs)
    else (.error ⟨.PermissionDenied, "Not authorized to access instance files"⟩, fs)

/-- Handler `make_instance_directory`: `mkdir_ok` is the outcome of
`tokio::fs::create_dir_all`. -/
def make_instance_directory (users : List (String × Lodestone.Requester)) (token : String)
    (instances : Lodestone.Registry) (uuid : String) (relative_path : String)
    (fs : Lodestone.Fs) (mkdir_ok : Bool) : Except Error Unit × Lodestone.Fs :=
  match Lodestone.try_auth token users with
  | none => (.error ⟨.Unauthorized, "Token error"⟩, fs)
  | some requester =>
    if requester.can_perform_action (.WriteInstanceFile uuid) then
      match Lodestone.regGet instances uuid with
      | none => (.error ⟨.InstanceNotFound, ""⟩, fs)
      | some inst =>
        match scoped_join_win_safe inst.path relative_path with
        | .error e => (.error e, fs)
        | .ok p =>
          if mkdir_ok then (.ok (), fs.mkdirAll p)
          else (.error ⟨.MalformedRequest, "Failed to create directory"⟩, fs)
    else (.error ⟨.PermissionDenied, "Not authorized to access instance files"⟩, fs)

/-- Handler `remove_instance_file`: protected check, then existence check, then
directory-or-file removal; `remove_ok` is the outcome of the removal call. -/
def remove_instance_file (users : List (String × Lodestone.Requester)) (token : String)
    (instances : Lodestone.Registry) (uuid : String) (relative_path : String)
    (fs : Lodestone.Fs) (remove_ok : Bool) : Except Error Unit × Lodestone.Fs :=
  match Lodestone.try_auth token users with
  | none => (.error ⟨.Unauthorized, "Token error"⟩, fs)
  | some requester =>
    if requester.can_perform_action (.WriteInstanceFile uuid) then
      match Lodestone.regGet instances uuid with
      | none => (.error ⟨.InstanceNotFound, ""⟩, fs)
      | some inst =>
        match scoped_join_win_safe inst.path relative_path with
        | .error e => (.error e, fs)
        | .ok p =>
          if is_file_protected p then
            (.error ⟨.PermissionDenied, "Cannot modify protected file"⟩, fs)
          else if !(fs.existsPath p) then
            (.error ⟨.FileOrDirNotFound, "Path does not exist"⟩, fs)
          else if fs.isDirAt p then
            if remove_ok then (.ok (), fs.removeDirAll p)
            else (.error ⟨.MalformedRequest, "Failed to remove directory"⟩, fs)
          else
            if remove_ok then (.ok (), fs.removeFile p)
            else (.error ⟨.MalformedRequest, "Failed to remove file"⟩, fs)
    else (.error ⟨.PermissionDenied, "Not authorized to access instance files"⟩, fs)

end InstanceFs

/-- Take the first `n` characters of a string (the `[0..8]` short-prefix slice
of an identity). -/
def strTake (s : String) (n : Nat) : String :=
  String.mk (s.data.take n)

/-- The shared application state the `instance.rs` handlers operate on: the
token-keyed user store, the instance registry, the Port Allocator's claimed
set, the filesystem, and the emitted event trace with its id counter. -/
structure AppState where
  users : List (String × Requester)
  instances : Registry
  ports : List Nat
  fs : Fs
  events : List Event
  next_event_id : Nat
  deriving DecidableEq, Repr

def AppState.emit (s : AppState) (e : Event) : AppState :=
  { s with events := s.events ++ [e] }

/-- The call `users_manager.update_permissions`: replace the permission record of the
user with the given uid. -/
def update_permissions (users : List (String × Requester)) (uid : String)
    (perm : UserPermission) : List (String × Requester) :=
  users.map (fun tr => if tr.2.uid == uid then (tr.1, { tr.2 with permissions := perm }) else tr)

/-- Insert into a capability set (`HashSet::insert`). -/
def setInsert (l : List String) (u : String) : List String :=
  if l.contains u then l else l ++ [u]

/-- The five per-instance grants the creator receives on success. -/
def grant_instance_perms (p : UserPermission) (uuid : String) : UserPermission :=
  { p with
    can_start_instance := setInsert p.can_start_instance uuid
    can_stop_instance := setInsert p.can_stop_instance uuid
    can_view_instance := setInsert p.can_view_instance uuid
    can_read_instance_file := setInsert p.can_read_instance_file uuid
    can_write_instance_file := setInsert p.can_write_instance_file uuid }

namespace InstanceApi

/-- Error kinds of `crate::error::ErrorKind` as used by the lifecycle
handlers.  `Internal` stands for the kind an `eyre`-context-wrapped I/O error
converts to. -/
inductive ErrorKind
  | Unauthorized
  | PermissionDenied
  | NotFound
  | BadRequest
  | Internal
  deriving DecidableEq, Repr

/-- The type `crate::error::Error`: a kind plus the source message. -/
structure Error where
  kind : ErrorKind
  source : String
  deriving DecidableEq, Repr

/-- The identity-collision loop of `create_instance` (lines 72-82 of
`instance.rs`), made deterministic by an explicit generator stream `gen`:
`gen 0` is the initial `InstanceUuid::default()` and each regeneration draws
the next element.  The loop makes a single pass over the registry keys; when a
key's first 8 characters (when it has at least 8) equal the current
candidate's first 8 characters, the candidate is regenerated and the pass
continues with the remaining keys only.  The `InstanceUuid` type is not among
the provided sources; per the spec an identity is an opaque UUID-like token,
so both its `as_ref` and `no_prefix` views are modelled as the identity
string itself. -/
def pickUuidGo : List String → (Nat → String) → Nat → String → String
  | [], _, _, cur => cur
  | k :: rest, gen, n, cur =>
    if 8 ≤ k.data.length ∧ k.data.take 8 = cur.data.take 8 then
      pickUuidGo rest gen (n + 1) (gen n)
    else
      pickUuidGo rest gen n cur

def pickUuid (keys : List String) (gen : Nat → String) : String :=
  pickUuidGo keys gen 1 (gen 0)

/-- The provisioning configuration produced by the flavour collaborator
(`construct_setup_config`): it determines the chosen name and port. -/
structure SetupConfig where
  name : String
  port : Nat
  flavour : String
  deriving DecidableEq, Repr

/-- The configured instances root (`PATH_TO_INSTANCES`). -/
def PATH_TO_INSTANCES : Path := ["lodestone", "instances"]

/-- Outcomes of the external calls a create workflow performs, passed in as an
oracle: the two synchronous filesystem steps, the detached provisioning call
(`MinecraftInstance::new`, `none` = success), the best-effort permission
persistence, the rollback `remove_dir_all`, and the provisioned instance's
creation timestamp. -/
structure CreateOracle where
  create_dir_ok : Bool
  write_config_ok : Bool
  provision_error : Option String
  update_perms_ok : Bool
  cleanup_ok : Bool
  creation_time : Int
  deriving DecidableEq, Repr

/-- The data the spawned provisioning task captures from the request. -/
structure SpawnCtx where
  uuid : String
  setup_config : SetupConfig
  setup_path : Path
  game_type : HandlerGameType
  requester : Requester
  perm : UserPermission
  deriving DecidableEq, Repr

/-- How the detached background task ends: normally, or by panicking on the
`unwrap` of a failed rollback cleanup. -/
inductive TaskOutcome
  | completed
  | panicked
  deriving DecidableEq, Repr

/-- The synchronous half of `create_instance`: authorize, pick an identity,
build the setup config, create the instance directory, write the
`.lodestone_config` marker, then return the identity to the caller and hand a
context to the spawned task. -/
def create_instance_sync (s : AppState) (token : String) (game_type : HandlerGameType)
    (setup : Except String SetupConfig) (gen : Nat → String) (o : CreateOracle) :
    Except Error String × AppState × Option SpawnCtx :=
  match try_auth token s.users with
  | none => (.error ⟨.Unauthorized, "Token error"⟩, s, none)
  | some requester =>
    if requester.can_perform_action .CreateInstance then
      let instance_uuid := pickUuid (s.instances.map Prod.fst) gen
      match setup with
      | .error e => (.error ⟨.BadRequest, e⟩, s, none)
      | .ok setup_config =>
        let setup_path := PATH_TO_INSTANCES ++ [setup_config.name ++ "-" ++ strTake instance_uuid 8]
        if o.create_dir_ok then
          let s1 := { s with fs := s.fs.mkdirAll setup_path }
          if o.write_config_ok then
            let dot : DotLodestoneConfig := ⟨instance_uuid, game_type⟩
            let s2 := { s1 with
              fs := s1.fs.writeFile (setup_path ++ [".lodestone_config"])
                (serialize_dot_lodestone_config dot) }
            (.ok instance_uuid, s2,
             some ⟨instance_uuid, setup_config, setup_path, game_type, requester,
                   requester.permissions⟩)
          else (.error ⟨.Internal, "Failed to write .lodestone_config file"⟩, s1, none)
        else (.error ⟨.Internal, "Failed to create instance directory"⟩, s, none)
    else (.error ⟨.PermissionDenied, "Permission denied"⟩, s, none)

/-- The detached provisioning task of `create_instance`: emit
progression-start; on success emit progression-end(success), reserve the port,
grant the creator the five instance permissions (best-effort), and insert into
the registry; on failure emit progression-end(failure) with the error message
and recursively delete the reserved directory, panicking if that cleanup
fails. -/
def create_instance_task (s : AppState) (ctx : SpawnCtx) (o : CreateOracle) :
    AppState × TaskOutcome :=
  let event_id := s.next_event_id
  let s0 := { s with next_event_id := s.next_event_id + 1 }
  let s1 := s0.emit (.progression_start event_id
    ("Setting up Minecraft server " ++ ctx.setup_config.name) (some ctx.uuid) (some 10)
    (.User ctx.requester.uid ctx.requester.username))
  match o.provision_error with
  | some e =>
    let s2 := s1.emit (.progression_end event_id false
      (some ("Instance creation failed: " ++ e)))
    if o.cleanup_ok then ({ s2 with fs := s2.fs.removeDirAll ctx.setup_path }, .completed)
    else (s2, .panicked)
  | none =>
    let inst : Instance :=
      ⟨ctx.uuid, ctx.setup_config.name, ctx.setup_path, ctx.setup_config.port,
       State.Stopped, o.creation_time⟩
    let s2 := s1.emit (.progression_end event_id true (some "Instance created successfully"))
    let s3 := { s2 with ports := addPort s2.ports ctx.setup_config.port }
    let granted := grant_instance_perms ctx.perm ctx.uuid
    let s4 :=
      if o.update_perms_ok then
        { s3 with users := update_permissions s3.users ctx.requester.uid granted }
      else s3
    ({ s4 with instances := regInsert s4.instances ctx.uuid inst }, .completed)

/-- The whole create workflow: the synchronous half followed by the detached
task (when one was spawned).  The first component is the response the caller
already received before the task ran. -/
def create_instance (s : AppState) (token : String) (game_type : HandlerGameType)
    (setup : Except String SetupConfig) (gen : Nat → String) (o : CreateOracle) :
    Except Error String × AppState × TaskOutcome :=
  match create_instance_sync s token game_type setup gen o with
  | (res, s1, none) => (res, s1, .completed)
  | (res, s1, some ctx) =>
    let t := create_instance_task s1 ctx o
    (res, t.1, t.2)

/-- Outcomes of the two fallible filesystem calls of `delete_instance`. -/
structure DeleteOracle where
  remove_marker_ok : Bool
  remove_dir_ok : Bool
  deriving DecidableEq, Repr

/-- Handler `delete_instance`: authorize, look up, require the stopped state, emit
progression-start, delete the `.lodestone_config` marker (aborting the whole
deletion on failure), release the port, unregister, then best-effort delete
the directory tree, reporting via progression-end either way. -/
def delete_instance (s : AppState) (token : String) (uuid : String) (o : DeleteOracle) :
    Except Error Unit × AppState :=
  match try_auth token s.users with
  | none => (.error ⟨.Unauthorized, "Token error"⟩, s)
  | some requester =>
    if requester.can_perform_action .DeleteInstance then
      match regGet s.instances uuid with
      | none => (.error ⟨.NotFound, "Instance not found"⟩, s)
      | some inst =>
        if inst.state == State.Stopped then
          let event_id := s.next_event_id
          let s0 := { s with next_event_id := s.next_event_id + 1 }
          let s1 := s0.emit (.progression_start event_id
            ("Deleting instance " ++ inst.name) (some uuid) (some 10)
            (.User requester.uid requester.username))
          if o.remove_marker_ok then
            let s2 := { s1 with fs := s1.fs.removeFile (inst.path ++ [".lodestone_config"]) }
            let s3 := { s2 with ports := deallocate s2.ports inst.port }
            let s4 := { s3 with instances := regRemove s3.instances uuid }
            if o.remove_dir_ok then
              let s5 := { s4 with fs := s4.fs.removeDirAll inst.path }
              (.ok (), s5.emit (.progression_end event_id true
                (some "Instance deleted successfully")))
            else
              (.error ⟨.Internal, "Failed to delete some of all of instance files"⟩,
               s4.emit (.progression_end event_id false
                 (some "Failed to delete some of all of instance files")))
          else
            (.error ⟨.Internal, "Failed to delete .lodestone_config file. Instance not deleted"⟩,
             s1.emit (.progression_end event_id false
               (some "Failed to delete .lodestone_config. Instance not deleted")))
        else (.error ⟨.BadRequest, "Instance must be stopped before deletion"⟩, s)
    else (.error ⟨.PermissionDenied, "Permission denied"⟩, s)

/-- Ordering on instance infos by creation time (what
`sort_by(|a, b| a.creation_time.cmp(&b.creation_time))` sorts by). -/
def infoLe (a b : InstanceInfo) : Prop :=
  a.creation_time ≤ b.creation_time

instance : DecidableRel infoLe :=
  fun a b => Int.decLe a.creation_time b.creation_time

instance : IsTotal InstanceInfo infoLe :=
  ⟨fun a b => Int.le_total a.creation_time b.creation_time⟩

instance : IsTrans InstanceInfo infoLe :=
  ⟨fun _ _ _ hab hbc => Int.le_trans hab hbc⟩

/-- Handler `get_instance_list`: include each registered instance's info exactly when
the requester may view it, then sort by creation time ascending (Rust's
stable `sort_by`, modelled by the stable insertion sort). -/
def get_instance_list (s : AppState) (token : String) :
    Except Error (List InstanceInfo) :=
  match try_auth token s.users with
  | none => .error ⟨.Unauthorized, "Token error"⟩
  | some requester =>
    .ok (List.insertionSort infoLe
      (((s.instances.map Prod.snd).filter
          (fun i => requester.can_perform_action (.ViewInstance i.uuid))).map
        Instance.get_instance_info))

/-- Handler `get_instance_info`: authenticate, look up (NotFound when absent), and
only then check the view permission. -/
def get_instance_info (s : AppState) (token : String) (uuid : String) :
    Except Error InstanceInfo :=
  match try_auth token s.users with
  | none => .error ⟨.Unauthorized, "Token error"⟩
  | some requester =>
    match regGet s.instances uuid with
    | none => .error ⟨.NotFound, "Instance not found"⟩
    | some inst =>
      if requester.can_perform_action (.ViewInstance uuid) then .ok inst.get_instance_info
      else .error ⟨.PermissionDenied, "Permission denied"⟩

end InstanceApi

/-! Concrete fixtures used to exercise the handlers on closed inputs. -/

/-- A permission record scoped to instance `u1`, with the global rights. -/
def wPerm : UserPermission := ⟨["u1"], ["u1"], ["u1"], ["u1"], ["u1"], true, true⟩

/-- An authorized requester. -/
def wReq : Requester := ⟨"uid1", "alice", wPerm⟩

/-- A requester with an empty permission record. -/
def wReqNone : Requester := ⟨"uid2", "bob", ⟨[], [], [], [], [], false, false⟩⟩

/-- A stopped registered instance. -/
def wInst : Instance :=
  ⟨"u1", "srv", ["lodestone", "instances", "srv-u1"], 25565, State.Stopped, 3⟩

/-- The same instance while running. -/
def wInstRunning : Instance :=
  ⟨"u1", "srv", ["lodestone", "instances", "srv-u1"], 25565, State.Running, 3⟩

/-- A filesystem holding the instance directory and its marker. -/
def wFs : Fs :=
  ⟨[(["lodestone", "instances", "srv-u1", ".lodestone_config"], "cfg")],
   [["lodestone"], ["lodestone", "instances"], ["lodestone", "instances", "srv-u1"]]⟩

/-- Application state with one stopped registered instance. -/
def wState : AppState := ⟨[("tok", wReq)], [("u1", wInst)], [25565], wFs, [], 0⟩

/-- Application state with the instance running. -/
def wStateRunning : AppState :=
  ⟨[("tok", wReq)], [("u1", wInstRunning)], [25565], wFs, [], 0⟩

/-- Application state with an empty registry. -/
def wStateEmpty : AppState := ⟨[("tok", wReq), ("tok2", wReqNone)], [], [], ⟨[], []⟩, [], 0⟩

/-- A generator stream for the identity-collision loop: the initial draw
collides with the second registry key, the redraw with the first. -/
def c6gen : Nat → String := fun n => if n = 0 then "bbbbbbbb-xxxx" else "aaaaaaaa-yyyy"

/-- A constant generator for create-workflow runs against an empty registry. -/
def wGen : Nat → String := fun _ => "cccccccc-zzzz"

/-- A setup configuration chosen by the flavour collaborator. -/
def wCfg : InstanceApi.SetupConfig := ⟨"srv", 25565, "vanilla"⟩

/-- Create oracle: provisioning fails, cleanup succeeds. -/
def wOracleFail : InstanceApi.CreateOracle := ⟨true, true, some "boom", true, true, 7⟩

/-- Create oracle: provisioning succeeds, permission persistence succeeds. -/
def wOracleOk : InstanceApi.CreateOracle := ⟨true, true, none, true, true, 7⟩

/-! Helper lemmas about the association-list and set operations. -/

theorem find?_filter_append_self {α : Type} (l : List α) (p : α → Bool) (x : α)
    (hx : p x = true) : ((l.filter (fun a => !(p a))) ++ [x]).find? p = some x := by
  induction l with
  | nil => simp [List.find?, hx]
  | cons a rest ih =>
    by_cases h : p a = true
    · simpa [List.filter_cons, h] using ih
    · simp only [List.filter_cons, Bool.not_eq_true] at *
      simp [h, List.find?, ih]

theorem find?_filter_none {α : Type} (l : List α) (p q : α → Bool)
    (himp : ∀ a, p a = true → q a = true) :
    (l.filter (fun a => !(q a))).find? p = none := by
  rw [List.find?_eq_none]
  intro x hx hpx
  have hq := himp x hpx
  have := (List.mem_filter.mp hx).2
  simp [hq] at this

theorem regGet_regInsert_self (m : Registry) (k : String) (v : Instance) :
    regGet (regInsert m k v) k = some v := by
  unfold regGet regInsert
  rw [find?_filter_append_self m (fun e => e.1 == k) (k, v) (by simp)]
  rfl

theorem regGet_regRemove_self (m : Registry) (k : String) :
    regGet (regRemove m k) k = none := by
  unfold regGet regRemove
  rw [find?_filter_none m (fun e => e.1 == k) (fun e => e.1 == k) (fun _ h => h)]
  rfl

theorem fileAt_writeFile_self (fs : Fs) (p : Path) (content : String) :
    (fs.writeFile p content).fileAt p = some content := by
  unfold Fs.fileAt Fs.writeFile
  rw [find?_filter_append_self fs.files (fun f => f.1 == p) (p, content) (by simp)]
  rfl

theorem fileAt_removeFile_self (fs : Fs) (p : Path) :
    (fs.removeFile p).fileAt p = none := by
  unfold Fs.fileAt Fs.removeFile
  rw [find?_filter_none fs.files (fun f => f.1 == p) (fun f => f.1 == p) (fun _ h => h)]
  rfl

theorem fileAt_removeDirAll (fs : Fs) (p q : Path) (h : p.isPrefixOf q = true) :
    (fs.removeDirAll p).fileAt q = none := by
  unfold Fs.fileAt Fs.removeDirAll
  rw [find?_filter_none fs.files (fun f => f.1 == q) (fun f => p.isPrefixOf f.1) ?_]
  · rfl
  · intro a ha
    have ha1 : a.1 = q := by simpa using ha
    show p.isPrefixOf a.1 = true
    rw [ha1]
    exact h

theorem contains_addPort (ports : List Nat) (p : Nat) :
    (addPort ports p).contains p = true := by
  unfold addPort
  by_cases h : ports.contains p = true
  · rw [if_pos h]
    exact h
  · rw [if_neg h]
    simp

theorem isPrefixOf_append (l t : List String) : l.isPrefixOf (l ++ t) = true := by
  induction l with
  | nil => simp [List.isPrefixOf]
  | cons a rest ih => simp [List.isPrefixOf, ih]

theorem contains_deallocate (ports : List Nat) (p : Nat) :
    (deallocate ports p).contains p = false := by
  unfold deallocate
  induction ports with
  | nil => rfl
  | cons a rest ih =>
    by_cases h : a = p
    · simp only [List.filter_cons, h]
      have hb : (p == p) = true := by simp
      simp only [hb, Bool.not_true, Bool.false_eq_true, if_false]
      exact ih
    · simp only [List.filter_cons]
      have hb : (a == p) = false := by simp [h]
      simp [hb, List.contains_cons, ih, Ne.symm h]

/-! The claims. -/

/-- Claim C1: for every authorized requester, a write-instance-file or
remove-instance-file request whose resolved target path ends in a protected
extension or has no extension fails with the protected-resource error (in the
code: kind `PermissionDenied`, detail "Cannot modify protected file") before
any filesystem mutation, and the file is neither written nor removed. -/
theorem C1_protected_target_rejected
    (users : List (String × Requester)) (token : String) (instances : Registry)
    (uuid relative_path body : String) (fs : Fs) (write_ok remove_ok : Bool)
    (r : Requester) (inst : Instance) (p : Path)
    (hauth : try_auth token users = some r)
    (hw : r.can_perform_action (.WriteInstanceFile uuid) = true)
    (hinst : regGet instances uuid = some inst)
    (hres : InstanceFs.scoped_join_win_safe inst.path relative_path = .ok p)
    (hprot : InstanceFs.is_file_protected p = true) :
    InstanceFs.write_instance_file users token instances uuid relative_path body fs write_ok
      = (.error ⟨.PermissionDenied, "Cannot modify protected file"⟩, fs)
    ∧ InstanceFs.remove_instance_file users token instances uuid relative_path fs remove_ok
      = (.error ⟨.PermissionDenied, "Cannot modify protected file"⟩, fs) := by
  constructor
  · simp [InstanceFs.write_instance_file, hauth, hw, hinst, hres, hprot]
  · simp [InstanceFs.remove_instance_file, hauth, hw, hinst, hres, hprot]

/-- Witness for C1 at a concrete input: an authorized writer targeting
`server.jar` is rejected and the filesystem is unchanged. -/
theorem C1_protected_target_rejected_witness :
    InstanceFs.write_instance_file [("tok", wReq)] "tok" [("u1", wInst)] "u1"
        "server.jar" "payload" wFs true
      = (.error ⟨.PermissionDenied, "Cannot modify protected file"⟩, wFs)
    ∧ InstanceFs.remove_instance_file [("tok", wReq)] "tok" [("u1", wInst)] "u1"
        "server.jar" wFs true
      = (.error ⟨.PermissionDenied, "Cannot modify protected file"⟩, wFs) :=
  C1_protected_target_rejected [("tok", wReq)] "tok" [("u1", wInst)] "u1"
    "server.jar" "payload" wFs true true wReq wInst
    ["lodestone", "instances", "srv-u1", "server.jar"] rfl rfl rfl rfl rfl

/-- Claim C2: the scoped join maps a plain relative path (no `..` component)
to its join with the root, and both `/`-separated and `\`-separated
parent-directory traversal escaping the root fails with the `MalformedPath`
kind. -/
theorem C2_path_resolution :
    (∀ (root : Path) (rel : String), ".." ∉ pathComponents rel →
      InstanceFs.scoped_join_win_safe root rel = .ok (root ++ pathComponents rel))
    ∧ (∀ root : Path, InstanceFs.scoped_join_win_safe root "a/b/c" = .ok (root ++ ["a", "b", "c"]))
    ∧ (∀ root : Path, InstanceFs.scoped_join_win_safe root "../../etc/passwd"
        = .error ⟨.MalformedPath, "Relative path tries to escape its root"⟩)
    ∧ (∀ root : Path, InstanceFs.scoped_join_win_safe root "..\\..\\secret"
        = .error ⟨.MalformedPath, "Relative path tries to escape its root"⟩) := by
  refine ⟨?_, fun _ => rfl, fun _ => rfl, fun _ => rfl⟩
  intro root rel h
  have key : ∀ cs : List String, ".." ∉ cs → ∀ acc, resolveRel cs acc = some (acc ++ cs) := by
    intro cs
    induction cs with
    | nil => intro _ acc; simp [resolveRel]
    | cons c rest ih =>
      intro hmem acc
      have hc : ¬(c = "..") := fun hcc => hmem (hcc ▸ List.mem_cons_self c rest)
      have hrest : ".." ∉ rest := fun hr => hmem (List.mem_cons_of_mem c hr)
      simp only [resolveRel, if_neg hc]
      rw [ih hrest (acc ++ [c])]
      simp
  unfold InstanceFs.scoped_join_win_safe
  rw [key (pathComponents rel) h []]
  rfl

/-- Witness for C2 at a concrete input. -/
theorem C2_path_resolution_witness :
    InstanceFs.scoped_join_win_safe ["r"] "x/y" = .ok ["r", "x", "y"] :=
  C2_path_resolution.1 ["r"] "x/y" (by decide)

/-- Claim C3: deleting a registered instance whose lifecycle state is not
"stopped" fails with `BadRequest` and the state is returned entirely
unchanged: the instance stays registered, its marker stays on disk, its port
stays reserved, and no event is emitted. -/
theorem C3_delete_requires_stopped
    (s : AppState) (token uuid : String) (o : InstanceApi.DeleteOracle)
    (r : Requester) (inst : Instance)
    (hauth : try_auth token s.users = some r)
    (hperm : r.can_perform_action .DeleteInstance = true)
    (hinst : regGet s.instances uuid = some inst)
    (hstate : inst.state ≠ State.Stopped) :
    InstanceApi.delete_instance s token uuid o
      = (.error ⟨.BadRequest, "Instance must be stopped before deletion"⟩, s)
    ∧ regGet (InstanceApi.delete_instance s token uuid o).2.instances uuid = some inst
    ∧ (InstanceApi.delete_instance s token uuid o).2.ports = s.ports
    ∧ (InstanceApi.delete_instance s token uuid o).2.fs = s.fs := by
  have h1 : InstanceApi.delete_instance s token uuid o
      = (.error ⟨.BadRequest, "Instance must be stopped before deletion"⟩, s) := by
    simp [InstanceApi.delete_instance, hauth, hperm, hinst, beq_iff_eq, hstate]
  refine ⟨h1, ?_, ?_, ?_⟩
  · rw [h1]
    exact hinst
  · rw [h1]
  · rw [h1]

/-- Witness for C3 at a concrete input: the running fixture instance. -/
theorem C3_delete_requires_stopped_witness :
    InstanceApi.delete_instance wStateRunning "tok" "u1" ⟨true, true⟩
      = (.error ⟨.BadRequest, "Instance must be stopped before deletion"⟩, wStateRunning) :=
  (C3_delete_requires_stopped wStateRunning "tok" "u1" ⟨true, true⟩ wReq wInstRunning
    rfl rfl rfl (by decide)).1

/-- Claim C6 fails on the code: the collision loop makes a single pass over
the registry keys and never rechecks a regenerated identity against keys
iterated earlier.  At this input the initial candidate collides with the
second key, and the regenerated identity — which the loop keeps — shares its
8-character prefix with the first registered key. -/
theorem C6_regenerated_prefix_still_collides :
    InstanceApi.pickUuid ["aaaaaaaa-1111", "bbbbbbbb-2222"] c6gen = "aaaaaaaa-yyyy"
    ∧ strTake "aaaaaaaa-yyyy" 8 = strTake "aaaaaaaa-1111" 8 :=
  ⟨rfl, rfl⟩

/-- Claim C7: when removal of the directory marker fails during delete, a
progression-end event carrying failure is emitted, the whole deletion aborts
with an error, and the instance remains registered with its port still
reserved and its files still on disk. -/
theorem C7_marker_removal_failure_aborts
    (s : AppState) (token uuid : String) (o : InstanceApi.DeleteOracle)
    (r : Requester) (inst : Instance)
    (hauth : try_auth token s.users = some r)
    (hperm : r.can_perform_action .DeleteInstance = true)
    (hinst : regGet s.instances uuid = some inst)
    (hstop : inst.state = State.Stopped)
    (hrm : o.remove_marker_ok = false) :
    (InstanceApi.delete_instance s token uuid o).1
      = .error ⟨.Internal, "Failed to delete .lodestone_config file. Instance not deleted"⟩
    ∧ (InstanceApi.delete_instance s token uuid o).2.instances = s.instances
    ∧ (InstanceApi.delete_instance s token uuid o).2.ports = s.ports
    ∧ (InstanceApi.delete_instance s token uuid o).2.fs = s.fs
    ∧ Event.progression_end s.next_event_id false
        (some "Failed to delete .lodestone_config. Instance not deleted")
        ∈ (InstanceApi.delete_instance s token uuid o).2.events := by
  refine ⟨?_, ?_, ?_, ?_, ?_⟩ <;>
    simp [InstanceApi.delete_instance, hauth, hperm, hinst, hstop, hrm, AppState.emit]

/-- Witness for C7 at a concrete input. -/
theorem C7_marker_removal_failure_aborts_witness :
    (InstanceApi.delete_instance wState "tok" "u1" ⟨false, true⟩).1
      = .error ⟨.Internal, "Failed to delete .lodestone_config file. Instance not deleted"⟩
    ∧ (InstanceApi.delete_instance wState "tok" "u1" ⟨false, true⟩).2.instances
        = wState.instances
    ∧ (InstanceApi.delete_instance wState "tok" "u1" ⟨false, true⟩).2.ports = wState.ports
    ∧ (InstanceApi.delete_instance wState "tok" "u1" ⟨false, true⟩).2.fs = wState.fs
    ∧ Event.progression_end wState.next_event_id false
        (some "Failed to delete .lodestone_config. Instance not deleted")
        ∈ (InstanceApi.delete_instance wState "tok" "u1" ⟨false, true⟩).2.events :=
  C7_marker_removal_failure_aborts wState "tok" "u1" ⟨false, true⟩ wReq wInst
    rfl rfl rfl rfl rfl

/-- Claim C8: once the marker-removal step succeeds, the unregistration and
port release are committed — the identity is gone from the registry, the port
is no longer claimed, the marker is gone — regardless of whether the final
recursive directory deletion succeeds; that final step's failure is reported
both as an error result and by a progression-end(failure) event, its success
by a progression-end(success) event. -/
theorem C8_unregistration_commits_before_file_removal
    (s : AppState) (token uuid : String) (o : InstanceApi.DeleteOracle)
    (r : Requester) (inst : Instance)
    (hauth : try_auth token s.users = some r)
    (hperm : r.can_perform_action .DeleteInstance = true)
    (hinst : regGet s.instances uuid = some inst)
    (hstop : inst.state = State.Stopped)
    (hrm : o.remove_marker_ok = true) :
    regGet (InstanceApi.delete_instance s token uuid o).2.instances uuid = none
    ∧ (InstanceApi.delete_instance s token uuid o).2.ports.contains inst.port = false
    ∧ (InstanceApi.delete_instance s token uuid o).2.fs.fileAt
        (inst.path ++ [".lodestone_config"]) = none
    ∧ (o.remove_dir_ok = true →
        (InstanceApi.delete_instance s token uuid o).1 = .ok ()
        ∧ Event.progression_end s.next_event_id true (some "Instance deleted successfully")
            ∈ (InstanceApi.delete_instance s token uuid o).2.events)
    ∧ (o.remove_dir_ok = false →
        (InstanceApi.delete_instance s token uuid o).1
          = .error ⟨.Internal, "Failed to delete some of all of instance files"⟩
        ∧ Event.progression_end s.next_event_id false
            (some "Failed to delete some of all of instance files")
            ∈ (InstanceApi.delete_instance s token uuid o).2.events) := by
  by_cases hdir : o.remove_dir_ok = true
  · have hinsts : (InstanceApi.delete_instance s token uuid o).2.instances
        = regRemove s.instances uuid := by
      simp [InstanceApi.delete_instance, hauth, hperm, hinst, hstop, hrm, hdir, AppState.emit]
    have hports : (InstanceApi.delete_instance s token uuid o).2.ports
        = deallocate s.ports inst.port := by
      simp [InstanceApi.delete_instance, hauth, hperm, hinst, hstop, hrm, hdir, AppState.emit]
    have hfs : (InstanceApi.delete_instance s token uuid o).2.fs
        = (s.fs.removeFile (inst.path ++ [".lodestone_config"])).removeDirAll inst.path := by
      simp [InstanceApi.delete_instance, hauth, hperm, hinst, hstop, hrm, hdir, AppState.emit]
    refine ⟨?_, ?_, ?_, fun _ => ⟨?_, ?_⟩, fun hcontra => absurd hdir (by simp [hcontra])⟩
    · rw [hinsts]
      exact regGet_regRemove_self _ _
    · rw [hports]
      exact contains_deallocate _ _
    · rw [hfs]
      exact fileAt_removeDirAll _ _ _ (isPrefixOf_append _ _)
    · simp [InstanceApi.delete_instance, hauth, hperm, hinst, hstop, hrm, hdir, AppState.emit]
    · simp [InstanceApi.delete_instance, hauth, hperm, hinst, hstop, hrm, hdir, AppState.emit]
  · have hdirf : o.remove_dir_ok = false := by simpa using hdir
    have hinsts : (InstanceApi.delete_instance s token uuid o).2.instances
        = regRemove s.instances uuid := by
      simp [InstanceApi.delete_instance, hauth, hperm, hinst, hstop, hrm, hdirf, AppState.emit]
    have hports : (InstanceApi.delete_instance s token uuid o).2.ports
        = deallocate s.ports inst.port := by
      simp [InstanceApi.delete_instance, hauth, hperm, hinst, hstop, hrm, hdirf, AppState.emit]
    have hfs : (InstanceApi.delete_instance s token uuid o).2.fs
        = s.fs.removeFile (inst.path ++ [".lodestone_config"]) := by
      simp [InstanceApi.delete_instance, hauth, hperm, hinst, hstop, hrm, hdirf, AppState.emit]
    refine ⟨?_, ?_, ?_, fun hcontra => absurd hcontra (by simp [hdirf]), fun _ => ⟨?_, ?_⟩⟩
    · rw [hinsts]
      exact regGet_regRemove_self _ _
    · rw [hports]
      exact contains_deallocate _ _
    · rw [hfs]
      exact fileAt_removeFile_self _ _
    · simp [InstanceApi.delete_instance, hauth, hperm, hinst, hstop, hrm, hdirf, AppState.emit]
    · simp [InstanceApi.delete_instance, hauth, hperm, hinst, hstop, hrm, hdirf, AppState.emit]

/-- Witness for C8 at a concrete input (final directory deletion succeeds). -/
theorem C8_unregistration_commits_before_file_removal_witness :
    regGet (InstanceApi.delete_instance wState "tok" "u1" ⟨true, true⟩).2.instances "u1" = none
    ∧ (InstanceApi.delete_instance wState "tok" "u1" ⟨true, true⟩).2.ports.contains
        wInst.port = false
    ∧ (InstanceApi.delete_instance wState "tok" "u1" ⟨true, true⟩).2.fs.fileAt
        (wInst.path ++ [".lodestone_config"]) = none
    ∧ ((true : Bool) = true →
        (InstanceApi.delete_instance wState "tok" "u1" ⟨true, true⟩).1 = .ok ()
        ∧ Event.progression_end wState.next_event_id true (some "Instance deleted successfully")
            ∈ (InstanceApi.delete_instance wState "tok" "u1" ⟨true, true⟩).2.events)
    ∧ ((true : Bool) = false →
        (InstanceApi.delete_instance wState "tok" "u1" ⟨true, true⟩).1
          = .error ⟨.Internal, "Failed to delete some of all of instance files"⟩
        ∧ Event.progression_end wState.next_event_id false
            (some "Failed to delete some of all of instance files")
            ∈ (InstanceApi.delete_instance wState "tok" "u1" ⟨true, true⟩).2.events) :=
  C8_unregistration_commits_before_file_removal wState "tok" "u1" ⟨true, true⟩ wReq wInst
    rfl rfl rfl rfl rfl

/-- Claim C9: for an authenticated requester the list operation returns
exactly the registered instances the requester may view — unauthorized ones
are silently omitted, viewable ones are never omitted — sorted by creation
time ascending. -/
theorem C9_list_exactly_viewable_sorted
    (s : AppState) (token : String) (r : Requester)
    (hauth : try_auth token s.users = some r) :
    ∃ l, InstanceApi.get_instance_list s token = .ok l
      ∧ List.Perm l (((s.instances.map Prod.snd).filter
            (fun i => r.can_perform_action (.ViewInstance i.uuid))).map
          Instance.get_instance_info)
      ∧ (∀ info, info ∈ l ↔ info ∈ ((s.instances.map Prod.snd).filter
            (fun i => r.can_perform_action (.ViewInstance i.uuid))).map
          Instance.get_instance_info)
      ∧ List.Sorted InstanceApi.infoLe l := by
  refine ⟨_, ?_, List.perm_insertionSort _ _, fun info => ?_, List.sorted_insertionSort _ _⟩
  · simp [InstanceApi.get_instance_list, hauth]
  · exact (List.perm_insertionSort _ _).mem_iff

/-- Witness for C9 at a concrete input. -/
theorem C9_list_exactly_viewable_sorted_witness :
    ∃ l, InstanceApi.get_instance_list wState "tok" = .ok l
      ∧ List.Perm l (((wState.instances.map Prod.snd).filter
            (fun i => wReq.can_perform_action (.ViewInstance i.uuid))).map
          Instance.get_instance_info)
      ∧ (∀ info, info ∈ l ↔ info ∈ ((wState.instances.map Prod.snd).filter
            (fun i => wReq.can_perform_action (.ViewInstance i.uuid))).map
          Instance.get_instance_info)
      ∧ List.Sorted InstanceApi.infoLe l :=
  C9_list_exactly_viewable_sorted wState "tok" wReq rfl

/-- Claim C10: in all five instance file-system operations the permission
check precedes the registry lookup, so a requester lacking the relevant file
permission receives `PermissionDenied` for every registry — in particular one
not containing the identity — whereas the instance-info endpoint checks
existence first and answers `NotFound` on an absent identity even without the
view permission. -/
theorem C10_permission_precedes_lookup
    (users : List (String × Requester)) (token : String) (instances : Registry)
    (uuid relative_path body : String) (fs : Fs) (write_ok mkdir_ok remove_ok : Bool)
    (r : Requester)
    (hauth : try_auth token users = some r)
    (hread : r.can_perform_action (.ReadInstanceFile uuid) = false)
    (hwrite : r.can_perform_action (.WriteInstanceFile uuid) = false) :
    InstanceFs.list_instance_files users token instances uuid relative_path fs
      = .error ⟨.PermissionDenied, "Not authorized to access instance files"⟩
    ∧ InstanceFs.read_instance_file users token instances uuid relative_path fs
      = .error ⟨.PermissionDenied, "Not authorized to access instance files"⟩
    ∧ InstanceFs.write_instance_file users token instances uuid relative_path body fs write_ok
      = (.error ⟨.PermissionDenied, "Not authorized to access instance files"⟩, fs)
    ∧ InstanceFs.make_instance_directory users token instances uuid relative_path fs mkdir_ok
      = (.error ⟨.PermissionDenied, "Not authorized to access instance files"⟩, fs)
    ∧ InstanceFs.remove_instance_file users token instances uuid relative_path fs remove_ok
      = (.error ⟨.PermissionDenied, "Not authorized to access instance files"⟩, fs)
    ∧ (∀ (s : AppState) (tok : String) (req : Requester),
        try_auth tok s.users = some req → regGet s.instances uuid = none →
        InstanceApi.get_instance_info s tok uuid = .error ⟨.NotFound, "Instance not found"⟩) := by
  refine ⟨?_, ?_, ?_, ?_, ?_, ?_⟩
  · simp [InstanceFs.list_instance_files, hauth, hread]
  · simp [InstanceFs.read_instance_file, hauth, hread]
  · simp [InstanceFs.write_instance_file, hauth, hwrite]
  · simp [InstanceFs.make_instance_directory, hauth, hwrite]
  · simp [InstanceFs.remove_instance_file, hauth, hwrite]
  · intro s tok req hauth2 hnone
    simp [InstanceApi.get_instance_info, hauth2, hnone]

/-- Witness for C10 at a concrete input: requester without file permissions,
empty registry. -/
theorem C10_permission_precedes_lookup_witness :
    InstanceFs.list_instance_files [("tok2", wReqNone)] "tok2" [] "u1" "a.txt" wFs
      = .error ⟨.PermissionDenied, "Not authorized to access instance files"⟩
    ∧ InstanceFs.read_instance_file [("tok2", wReqNone)] "tok2" [] "u1" "a.txt" wFs
      = .error ⟨.PermissionDenied, "Not authorized to access instance files"⟩
    ∧ InstanceFs.write_instance_file [("tok2", wReqNone)] "tok2" [] "u1" "a.txt" "b" wFs true
      = (.error ⟨.PermissionDenied, "Not authorized to access instance files"⟩, wFs)
    ∧ InstanceFs.make_instance_directory [("tok2", wReqNone)] "tok2" [] "u1" "a.txt" wFs true
      = (.error ⟨.PermissionDenied, "Not authorized to access instance files"⟩, wFs)
    ∧ InstanceFs.remove_instance_file [("tok2", wReqNone)] "tok2" [] "u1" "a.txt" wFs true
      = (.error ⟨.PermissionDenied, "Not authorized to access instance files"⟩, wFs)
    ∧ (∀ (s : AppState) (tok : String) (req : Requester),
        try_auth tok s.users = some req → regGet s.instances "u1" = none →
        InstanceApi.get_instance_info s tok "u1" = .error ⟨.NotFound, "Instance not found"⟩) :=
  C10_permission_precedes_lookup [("tok2", wReqNone)] "tok2" [] "u1" "a.txt" "b" wFs
    true true true wReqNone rfl rfl rfl

/-- Claim C4: when the detached provisioning step fails, a
progression-end(failure) event carrying the error message is emitted, the
identity is never inserted into the registry, the chosen port is never
reserved, and the reserved directory tree is recursively deleted; a failure
of that cleanup panics the background task itself, while the caller's
already-sent response (the identity) is unaffected either way. -/
theorem C4_provision_failure_rolled_back
    (s : AppState) (token : String) (game_type : HandlerGameType)
    (cfg : InstanceApi.SetupConfig) (gen : Nat → String) (o : InstanceApi.CreateOracle)
    (r : Requester) (e : String) (uuid : String) (sp : Path)
    (hauth : try_auth token s.users = some r)
    (hperm : r.can_perform_action .CreateInstance = true)
    (hdir : o.create_dir_ok = true)
    (hcfgw : o.write_config_ok = true)
    (hfail : o.provision_error = some e)
    (huuid : uuid = InstanceApi.pickUuid (s.instances.map Prod.fst) gen)
    (hsp : sp = InstanceApi.PATH_TO_INSTANCES ++ [cfg.name ++ "-" ++ strTake uuid 8]) :
    (InstanceApi.create_instance s token game_type (.ok cfg) gen o).1 = .ok uuid
    ∧ (InstanceApi.create_instance s token game_type (.ok cfg) gen o).2.1.instances
        = s.instances
    ∧ (InstanceApi.create_instance s token game_type (.ok cfg) gen o).2.1.ports = s.ports
    ∧ Event.progression_end s.next_event_id false
        (some ("Instance creation failed: " ++ e))
        ∈ (InstanceApi.create_instance s token game_type (.ok cfg) gen o).2.1.events
    ∧ (o.cleanup_ok = true →
        (InstanceApi.create_instance s token game_type (.ok cfg) gen o).2.2
          = .completed
        ∧ (InstanceApi.create_instance s token game_type (.ok cfg) gen o).2.1.fs
            = ((s.fs.mkdirAll sp).writeFile (sp ++ [".lodestone_config"])
                (serialize_dot_lodestone_config ⟨uuid, game_type⟩)).removeDirAll sp
        ∧ (InstanceApi.create_instance s token game_type (.ok cfg) gen o).2.1.fs.fileAt
            (sp ++ [".lodestone_config"]) = none)
    ∧ (o.cleanup_ok = false →
        (InstanceApi.create_instance s token game_type (.ok cfg) gen o).2.2
          = .panicked) := by
  subst huuid hsp
  by_cases hcl : o.cleanup_ok = true
  · refine ⟨?_, ?_, ?_, ?_, fun _ => ⟨?_, ?_, ?_⟩,
      fun hcontra => absurd hcl (by simp [hcontra])⟩
    · simp [InstanceApi.create_instance, InstanceApi.create_instance_sync,
        InstanceApi.create_instance_task, hauth, hperm, hdir, hcfgw, hfail, hcl, AppState.emit]
    · simp [InstanceApi.create_instance, InstanceApi.create_instance_sync,
        InstanceApi.create_instance_task, hauth, hperm, hdir, hcfgw, hfail, hcl, AppState.emit]
    · simp [InstanceApi.create_instance, InstanceApi.create_instance_sync,
        InstanceApi.create_instance_task, hauth, hperm, hdir, hcfgw, hfail, hcl, AppState.emit]
    · simp [InstanceApi.create_instance, InstanceApi.create_instance_sync,
        InstanceApi.create_instance_task, hauth, hperm, hdir, hcfgw, hfail, hcl, AppState.emit]
    · simp [InstanceApi.create_instance, InstanceApi.create_instance_sync,
        InstanceApi.create_instance_task, hauth, hperm, hdir, hcfgw, hfail, hcl, AppState.emit]
    · simp [InstanceApi.create_instance, InstanceApi.create_instance_sync,
        InstanceApi.create_instance_task, hauth, hperm, hdir, hcfgw, hfail, hcl, AppState.emit]
    · have hfs : (InstanceApi.create_instance s token game_type (.ok cfg) gen o).2.1.fs
          = ((s.fs.mkdirAll (InstanceApi.PATH_TO_INSTANCES
                ++ [cfg.name ++ "-" ++ strTake (InstanceApi.pickUuid
                      (s.instances.map Prod.fst) gen) 8])).writeFile
              ((InstanceApi.PATH_TO_INSTANCES
                ++ [cfg.name ++ "-" ++ strTake (InstanceApi.pickUuid
                      (s.instances.map Prod.fst) gen) 8]) ++ [".lodestone_config"])
              (serialize_dot_lodestone_config
                ⟨InstanceApi.pickUuid (s.instances.map Prod.fst) gen, game_type⟩)).removeDirAll
            (InstanceApi.PATH_TO_INSTANCES
              ++ [cfg.name ++ "-" ++ strTake (InstanceApi.pickUuid
                    (s.instances.map Prod.fst) gen) 8]) := by
        simp [InstanceApi.create_instance, InstanceApi.create_instance_sync,
          InstanceApi.create_instance_task, hauth, hperm, hdir, hcfgw, hfail, hcl, AppState.emit]
      rw [hfs]
      exact fileAt_removeDirAll _ _ _ (isPrefixOf_append _ _)
  · have hclf : o.cleanup_ok = false := by simpa using hcl
    refine ⟨?_, ?_, ?_, ?_, fun hcontra => absurd hcontra (by simp [hclf]), fun _ => ?_⟩ <;>
      simp [InstanceApi.create_instance, InstanceApi.create_instance_sync,
        InstanceApi.create_instance_task, hauth, hperm, hdir, hcfgw, hfail, hclf, AppState.emit]

/-- Witness for C4 at a concrete input: empty registry, provisioning fails
with "boom", cleanup succeeds. -/
theorem C4_provision_failure_rolled_back_witness :
    (InstanceApi.create_instance wStateEmpty "tok" .MinecraftJavaVanilla (.ok wCfg)
        wGen wOracleFail).1 = .ok "cccccccc-zzzz"
    ∧ (InstanceApi.create_instance wStateEmpty "tok" .MinecraftJavaVanilla (.ok wCfg)
        wGen wOracleFail).2.1.instances = wStateEmpty.instances
    ∧ (InstanceApi.create_instance wStateEmpty "tok" .MinecraftJavaVanilla (.ok wCfg)
        wGen wOracleFail).2.1.ports = wStateEmpty.ports
    ∧ Event.progression_end wStateEmpty.next_event_id false
        (some ("Instance creation failed: " ++ "boom"))
        ∈ (InstanceApi.create_instance wStateEmpty "tok" .MinecraftJavaVanilla (.ok wCfg)
            wGen wOracleFail).2.1.events
    ∧ (wOracleFail.cleanup_ok = true →
        (InstanceApi.create_instance wStateEmpty "tok" .MinecraftJavaVanilla (.ok wCfg)
            wGen wOracleFail).2.2 = .completed
        ∧ (InstanceApi.create_instance wStateEmpty "tok" .MinecraftJavaVanilla (.ok wCfg)
            wGen wOracleFail).2.1.fs
            = ((wStateEmpty.fs.mkdirAll ["lodestone", "instances", "srv-cccccccc"]).writeFile
                (["lodestone", "instances", "srv-cccccccc"] ++ [".lodestone_config"])
                (serialize_dot_lodestone_config
                  ⟨"cccccccc-zzzz", .MinecraftJavaVanilla⟩)).removeDirAll
              ["lodestone", "instances", "srv-cccccccc"]
        ∧ (InstanceApi.create_instance wStateEmpty "tok" .MinecraftJavaVanilla (.ok wCfg)
            wGen wOracleFail).2.1.fs.fileAt
            (["lodestone", "instances", "srv-cccccccc"] ++ [".lodestone_config"]) = none)
    ∧ (wOracleFail.cleanup_ok = false →
        (InstanceApi.create_instance wStateEmpty "tok" .MinecraftJavaVanilla (.ok wCfg)
            wGen wOracleFail).2.2 = .panicked) :=
  C4_provision_failure_rolled_back wStateEmpty "tok" .MinecraftJavaVanilla wCfg wGen
    wOracleFail wReq "boom" "cccccccc-zzzz" ["lodestone", "instances", "srv-cccccccc"]
    rfl rfl rfl rfl rfl rfl rfl

/-- Claim C5: after a create whose detached provisioning step succeeds, the
registry contains the new identity, the manifest-chosen port is reserved, the
directory marker holding that identity is on disk in the instance directory,
and when the best-effort permission persistence succeeds the creator's record
gains the start/stop/view/read-file/write-file grants scoped to the new
identity; when it fails, the user store is untouched and the task still
completes normally. -/
theorem C5_create_success_postconditions
    (s : AppState) (token : String) (game_type : HandlerGameType)
    (cfg : InstanceApi.SetupConfig) (gen : Nat → String) (o : InstanceApi.CreateOracle)
    (r : Requester) (uuid : String) (sp : Path)
    (hauth : try_auth token s.users = some r)
    (hperm : r.can_perform_action .CreateInstance = true)
    (hdir : o.create_dir_ok = true)
    (hcfgw : o.write_config_ok = true)
    (hok : o.provision_error = none)
    (huuid : uuid = InstanceApi.pickUuid (s.instances.map Prod.fst) gen)
    (hsp : sp = InstanceApi.PATH_TO_INSTANCES ++ [cfg.name ++ "-" ++ strTake uuid 8]) :
    (InstanceApi.create_instance s token game_type (.ok cfg) gen o).1 = .ok uuid
    ∧ regGet (InstanceApi.create_instance s token game_type (.ok cfg) gen o).2.1.instances
        uuid = some ⟨uuid, cfg.name, sp, cfg.port, State.Stopped, o.creation_time⟩
    ∧ (InstanceApi.create_instance s token game_type (.ok cfg) gen o).2.1.ports.contains
        cfg.port = true
    ∧ (InstanceApi.create_instance s token game_type (.ok cfg) gen o).2.1.fs.fileAt
        (sp ++ [".lodestone_config"])
        = some (serialize_dot_lodestone_config ⟨uuid, game_type⟩)
    ∧ (o.update_perms_ok = true →
        (InstanceApi.create_instance s token game_type (.ok cfg) gen o).2.1.users
          = update_permissions s.users r.uid (grant_instance_perms r.permissions uuid))
    ∧ (o.update_perms_ok = false →
        (InstanceApi.create_instance s token game_type (.ok cfg) gen o).2.1.users = s.users)
    ∧ (InstanceApi.create_instance s token game_type (.ok cfg) gen o).2.2 = .completed := by
  subst huuid hsp
  by_cases hup : o.update_perms_ok = true
  · refine ⟨?_, ?_, ?_, ?_, fun _ => ?_,
      fun hcontra => absurd hup (by simp [hcontra]), ?_⟩
    · simp [InstanceApi.create_instance, InstanceApi.create_instance_sync,
        InstanceApi.create_instance_task, hauth, hperm, hdir, hcfgw, hok, hup, AppState.emit]
    · have hinsts : (InstanceApi.create_instance s token game_type (.ok cfg) gen o).2.1.instances
          = regInsert s.instances (InstanceApi.pickUuid (s.instances.map Prod.fst) gen)
            ⟨InstanceApi.pickUuid (s.instances.map Prod.fst) gen, cfg.name,
             InstanceApi.PATH_TO_INSTANCES
               ++ [cfg.name ++ "-" ++ strTake (InstanceApi.pickUuid
                     (s.instances.map Prod.fst) gen) 8],
             cfg.port, State.Stopped, o.creation_time⟩ := by
        simp [InstanceApi.create_instance, InstanceApi.create_instance_sync,
          InstanceApi.create_instance_task, hauth, hperm, hdir, hcfgw, hok, hup, AppState.emit]
      rw [hinsts]
      exact regGet_regInsert_self _ _ _
    · have hports : (InstanceApi.create_instance s token game_type (.ok cfg) gen o).2.1.ports
          = addPort s.ports cfg.port := by
        simp [InstanceApi.create_instance, InstanceApi.create_instance_sync,
          InstanceApi.create_instance_task, hauth, hperm, hdir, hcfgw, hok, hup, AppState.emit]
      rw [hports]
      exact contains_addPort _ _
    · have hfs : (InstanceApi.create_instance s token game_type (.ok cfg) gen o).2.1.fs
          = (s.fs.mkdirAll (InstanceApi.PATH_TO_INSTANCES
                ++ [cfg.name ++ "-" ++ strTake (InstanceApi.pickUuid
                      (s.instances.map Prod.fst) gen) 8])).writeFile
              ((InstanceApi.PATH_TO_INSTANCES
                ++ [cfg.name ++ "-" ++ strTake (InstanceApi.pickUuid
                      (s.instances.map Prod.fst) gen) 8]) ++ [".lodestone_config"])
              (serialize_dot_lodestone_config
                ⟨InstanceApi.pickUuid (s.instances.map Prod.fst) gen, game_type⟩) := by
        simp [InstanceApi.create_instance, InstanceApi.create_instance_sync,
          InstanceApi.create_instance_task, hauth, hperm, hdir, hcfgw, hok, hup, AppState.emit]
      rw [hfs]
      exact fileAt_writeFile_self _ _ _
    · simp [InstanceApi.create_instance, InstanceApi.create_instance_sync,
        InstanceApi.create_instance_task, hauth, hperm, hdir, hcfgw, hok, hup, AppState.emit]
    · simp [InstanceApi.create_instance, InstanceApi.create_instance_sync,
        InstanceApi.create_instance_task, hauth, hperm, hdir, hcfgw, hok, hup, AppState.emit]
  · have hupf : o.update_perms_ok = false := by simpa using hup
    refine ⟨?_, ?_, ?_, ?_, fun hcontra => absurd hcontra (by simp [hupf]),
      fun _ => ?_, ?_⟩
    · simp [InstanceApi.create_instance, InstanceApi.create_instance_sync,
        InstanceApi.create_instance_task, hauth, hperm, hdir, hcfgw, hok, hupf, AppState.emit]
    · have hinsts : (InstanceApi.create_instance s token game_type (.ok cfg) gen o).2.1.instances
          = regInsert s.instances (InstanceApi.pickUuid (s.instances.map Prod.fst) gen)
            ⟨InstanceApi.pickUuid (s.instances.map Prod.fst) gen, cfg.name,
             InstanceApi.PATH_TO_INSTANCES
               ++ [cfg.name ++ "-" ++ strTake (InstanceApi.pickUuid
                     (s.instances.map Prod.fst) gen) 8],
             cfg.port, State.Stopped, o.creation_time⟩ := by
        simp [InstanceApi.create_instance, InstanceApi.create_instance_sync,
          InstanceApi.create_instance_task, hauth, hperm, hdir, hcfgw, hok, hupf, AppState.emit]
      rw [hinsts]
      exact regGet_regInsert_self _ _ _
    · have hports : (InstanceApi.create_instance s token game_type (.ok cfg) gen o).2.1.ports
          = addPort s.ports cfg.port := by
        simp [InstanceApi.create_instance, InstanceApi.create_instance_sync,
          InstanceApi.create_instance_task, hauth, hperm, hdir, hcfgw, hok, hupf, AppState.emit]
      rw [hports]
      exact contains_addPort _ _
    · have hfs : (InstanceApi.create_instance s token game_type (.ok cfg) gen o).2.1.fs
          = (s.fs.mkdirAll (InstanceApi.PATH_TO_INSTANCES
                ++ [cfg.name ++ "-" ++ strTake (InstanceApi.pickUuid
                      (s.instances.map Prod.fst) gen) 8])).writeFile
              ((InstanceApi.PATH_TO_INSTANCES
                ++ [cfg.name ++ "-" ++ strTake (InstanceApi.pickUuid
                      (s.instances.map Prod.fst) gen) 8]) ++ [".lodestone_config"])
              (serialize_dot_lodestone_config
                ⟨InstanceApi.pickUuid (s.instances.map Prod.fst) gen, game_type⟩) := by
        simp [InstanceApi.create_instance, InstanceApi.create_instance_sync,
          InstanceApi.create_instance_task, hauth, hperm, hdir, hcfgw, hok, hupf, AppState.emit]
      rw [hfs]
      exact fileAt_writeFile_self _ _ _
    · simp [InstanceApi.create_instance, InstanceApi.create_instance_sync,
        InstanceApi.create_instance_task, hauth, hperm, hdir, hcfgw, hok, hupf, AppState.emit]
    · simp [InstanceApi.create_instance, InstanceApi.create_instance_sync,
        InstanceApi.create_instance_task, hauth, hperm, hdir, hcfgw, hok, hupf, AppState.emit]

/-- Witness for C5 at a concrete input: empty registry, provisioning and
permission persistence succeed. -/
theorem C5_create_success_postconditions_witness :
    (InstanceApi.create_instance wStateEmpty "tok" .MinecraftJavaVanilla (.ok wCfg)
        wGen wOracleOk).1 = .ok "cccccccc-zzzz"
    ∧ regGet (InstanceApi.create_instance wStateEmpty "tok" .MinecraftJavaVanilla (.ok wCfg)
        wGen wOracleOk).2.1.instances "cccccccc-zzzz"
        = some ⟨"cccccccc-zzzz", wCfg.name, ["lodestone", "instances", "srv-cccccccc"],
                wCfg.port, State.Stopped, wOracleOk.creation_time⟩
    ∧ (InstanceApi.create_instance wStateEmpty "tok" .MinecraftJavaVanilla (.ok wCfg)
        wGen wOracleOk).2.1.ports.contains wCfg.port = true
    ∧ (InstanceApi.create_instance wStateEmpty "tok" .MinecraftJavaVanilla (.ok wCfg)
        wGen wOracleOk).2.1.fs.fileAt
        (["lodestone", "instances", "srv-cccccccc"] ++ [".lodestone_config"])
        = some (serialize_dot_lodestone_config ⟨"cccccccc-zzzz", .MinecraftJavaVanilla⟩)
    ∧ (wOracleOk.update_perms_ok = true →
        (InstanceApi.create_instance wStateEmpty "tok" .MinecraftJavaVanilla (.ok wCfg)
            wGen wOracleOk).2.1.users
          = update_permissions wStateEmpty.users wReq.uid
              (grant_instance_perms wReq.permissions "cccccccc-zzzz"))
    ∧ (wOracleOk.update_perms_ok = false →
        (InstanceApi.create_instance wStateEmpty "tok" .MinecraftJavaVanilla (.ok wCfg)
            wGen wOracleOk).2.1.users = wStateEmpty.users)
    ∧ (InstanceApi.create_instance wStateEmpty "tok" .MinecraftJavaVanilla (.ok wCfg)
        wGen wOracleOk).2.2 = .completed :=
  C5_create_success_postconditions wStateEmpty "tok" .MinecraftJavaVanilla wCfg wGen
    wOracleOk wReq "cccccccc-zzzz" ["lodestone", "instances", "srv-cccccccc"]
    rfl rfl rfl rfl rfl rfl rfl

end Lodestone
